import Mathlib

/-!
Shallow embedding of the chatroom-api route handlers
(`src/app/routes/chatroom_routes.js` and the structurally identical
project routes file) together with the Mongoose document model
(`app/models/chatroom.js` / `app/models/project.js`).

Identifiers (Mongo ObjectIds and principal ids) are modelled as `String`;
a JavaScript `undefined` field is modelled as `none : Option String`.
The document store is an association list from document id (`Nat`) to
document; `findById`, `findOneAndUpdate` (with `\x7bnew: true\x7d`, which in
Mongoose applies the operator-free update document as a `$set` of the
supplied fields and returns the post-update document) and `deleteOne`
are modelled as pure functions on that list.

The promise chains of the handlers are sequentialised: each `.then`
stage becomes one function, and a value that would make a later stage
throw (for example calling `.toObject()` on the plain string that the
PATCH mismatch branch returns) is sent to the error channel as a
`typeError`, exactly where `.catch(next)` would receive it.
-/

namespace ChatroomApi

/-- Fields of a stored document, following the Mongoose schemas: `owner`
and `user1` are required, `user2` and the string fields are optional,
`messages` is an ordered list. -/
structure StoredDoc where
  owner : String
  user1 : String
  user2 : Option String := none
  title : Option String := none
  user1Email : Option String := none
  user2Email : Option String := none
  messages : List String := []
  deriving Repr, DecidableEq

/-- A client payload (the nested object under `req.body.chatroom` /
`req.body.project`): every field may be absent (`none` = JS `undefined`). -/
structure Payload where
  owner : Option String := none
  user1 : Option String := none
  user2 : Option String := none
  title : Option String := none
  user1Email : Option String := none
  user2Email : Option String := none
  messages : Option (List String) := none
  deriving Repr, DecidableEq

/-- The document collection: id/document pairs. -/
def Store : Type := List (Nat × StoredDoc)

/-- Error kinds reaching the centralized error handler via `.catch(next)`. -/
inductive ApiError where
  | notFound
  | notOwner
  | validationErr
  | typeError (msg : String)
  deriving Repr, DecidableEq

/-- A handler outcome: an HTTP success (status plus optional JSON document)
or an error forwarded to the error channel. -/
inductive Outcome where
  | ok (status : Nat) (body : Option StoredDoc)
  | err (e : ApiError)
  deriving Repr, DecidableEq

/-- `Model.findById`: first document stored under the id, if any. -/
def findById (store : Store) (id : Nat) : Option StoredDoc :=
  match store with
  | [] => none
  | (k, d) :: rest => if k = id then some d else findById rest id

/-- Replace every entry stored under `id` by `d` (ids are unique in any
store the API builds, so this is the single updated document). -/
def updateById (store : Store) (id : Nat) (d : StoredDoc) : Store :=
  match store with
  | [] => []
  | (k, e) :: rest =>
    if k = id then (k, d) :: updateById rest id d
    else (k, e) :: updateById rest id d

/-- `document.deleteOne()`: remove the entries stored under `id`. -/
def deleteById (store : Store) (id : Nat) : Store :=
  match store with
  | [] => []
  | (k, e) :: rest =>
    if k = id then deleteById rest id else (k, e) :: deleteById rest id

/-- A fresh id for `Model.create` (storage-assigned). -/
def freshId (store : Store) : Nat :=
  (store.map Prod.fst).foldr max 0 + 1

/-- `$set` of one optional field: a field present in the update document
overwrites, an absent one leaves the stored value. -/
def setField (new old : Option String) : Option String :=
  match new with
  | some v => some v
  | none => old

/-- Applying an operator-free Mongoose update document: `$set` of each
field present in the payload, all other stored fields unchanged. -/
def applyUpdate (doc : StoredDoc) (p : Payload) : StoredDoc :=
  { owner := p.owner.getD doc.owner
    user1 := p.user1.getD doc.user1
    user2 := setField p.user2 doc.user2
    title := setField p.title doc.title
    user1Email := setField p.user1Email doc.user1Email
    user2Email := setField p.user2Email doc.user2Email
    messages := p.messages.getD doc.messages }

/-- `Model.findOneAndUpdate(\x7b_id: id\x7d, p, \x7bnew: true\x7d)`: `null` when no
document matches, otherwise the post-update document, which also becomes
the stored one. -/
def findOneAndUpdate (store : Store) (id : Nat) (p : Payload) :
    Option StoredDoc × Store :=
  match findById store id with
  | none => (none, store)
  | some d => ((some (applyUpdate d p)), updateById store id (applyUpdate d p))

/-- Modelled from the spec: `handle404` from `lib/custom_errors` (the file
is not part of the sources here) "maps an absent lookup result to a
structured 404 failure" and passes a present document through. -/
def handle404 (r : Option StoredDoc) : Except ApiError StoredDoc :=
  match r with
  | none => .error .notFound
  | some d => .ok d

/-- Modelled from the spec: `requireOwnership` from `lib/custom_errors`
(not part of the sources here) "fails with NotOwner if the authenticated
principal does not match the resource's `owner`". -/
def requireOwnership (principal : String) (doc : StoredDoc) :
    Except ApiError Unit :=
  if principal = doc.owner then .ok () else .error .notOwner

/-- Strip one field bound to the empty string. -/
def stripBlank (v : Option String) : Option String :=
  match v with
  | some s => if s = "" then none else some s
  | none => none

/-- Modelled from the spec: the `removeBlanks` middleware from
`lib/remove_blank_fields` (not part of the sources here) "strips
empty-string fields from a nested update payload before it reaches
storage". -/
def removeBlanks (p : Payload) : Payload :=
  { owner := stripBlank p.owner
    user1 := stripBlank p.user1
    user2 := stripBlank p.user2
    title := stripBlank p.title
    user1Email := stripBlank p.user1Email
    user2Email := stripBlank p.user2Email
    messages := p.messages }

/-- Value produced by the PATCH authorization callback (lines 84-96):
either the result of `findOneAndUpdate` or the plain string literal of
the mismatch branch. -/
inductive ThenValue where
  | mongoResult (r : Option StoredDoc)
  | str (s : String)
  deriving Repr, DecidableEq

/-- The payload the PATCH handler works with: the body after the
`removeBlanks` middleware and after `delete req.body.chatroom.owner`. -/
def patchPayload (body : Payload) : Payload :=
  { removeBlanks body with owner := none }

/-- The PATCH authorization callback (chatroom_routes.js lines 84-96):
if the stored `user2` is `undefined` the update runs unconditionally;
otherwise, if both the payload's `user1` and `user2` strictly differ from
the stored values, the string `'You are not involved in this project'`
is returned; otherwise the update runs. -/
def patchStep (store : Store) (id : Nat) (doc : StoredDoc) (p : Payload) :
    ThenValue × Store :=
  if doc.user2 = none then
    let r := findOneAndUpdate store id p
    (ThenValue.mongoResult r.1, r.2)
  else if p.user1 ≠ some doc.user1 ∧ p.user2 ≠ doc.user2 then
    (ThenValue.str "You are not involved in this project", store)
  else
    let r := findOneAndUpdate store id p
    (ThenValue.mongoResult r.1, r.2)

/-- The PATCH success continuation (line 98): `chatroom.toObject()`.
Calling it on the string of the mismatch branch, or on `null`, throws a
TypeError that `.catch(next)` forwards to the error channel. -/
def toObjectStep (tv : ThenValue) : Except ApiError StoredDoc :=
  match tv with
  | .mongoResult (some d) => .ok d
  | .mongoResult none => .error (.typeError "Cannot read properties of null")
  | .str _ => .error (.typeError "chatroom.toObject is not a function")

/-- PATCH `/chatrooms/:id` (identically, PATCH `/projects/:id`),
lines 77-101: sanitize, drop `owner`, fetch, `handle404`, authorization
callback, then respond 201 with the `toObject` of the callback's value. -/
def patchHandler (store : Store) (id : Nat) (body : Payload) :
    Outcome × Store :=
  let p := patchPayload body
  match handle404 (findById store id) with
  | .error e => (.err e, store)
  | .ok doc =>
    let r := patchStep store id doc p
    match toObjectStep r.1 with
    | .ok d => (.ok 201 (some d), r.2)
    | .error e => (.err e, r.2)

/-- GET `/chatrooms/:id` (SHOW), lines 48-56: fetch, `handle404`,
respond 200 with the document. -/
def showHandler (store : Store) (id : Nat) : Outcome :=
  match handle404 (findById store id) with
  | .error e => .err e
  | .ok doc => .ok 200 (some doc)

/-- DELETE `/games/:id` (identically, DELETE `/projects/:id`),
lines 105-118: fetch, `handle404`, `requireOwnership`, `deleteOne`,
respond 204 with no content. -/
def deleteHandler (store : Store) (principal : String) (id : Nat) :
    Outcome × Store :=
  match handle404 (findById store id) with
  | .error e => (.err e, store)
  | .ok doc =>
    match requireOwnership principal doc with
    | .error e => (.err e, store)
    | .ok _ => (.ok 204 none, deleteById store id)

/-- Mongoose validation at `Model.create`: `owner` and `user1` are
required by the schema; a payload missing either fails validation. -/
def createDoc (p : Payload) : Except ApiError StoredDoc :=
  match p.owner, p.user1 with
  | some o, some u1 =>
    .ok { owner := o
          user1 := u1
          user2 := p.user2
          title := p.title
          user1Email := p.user1Email
          user2Email := p.user2Email
          messages := p.messages.getD [] }
  | _, _ => .error .validationErr

/-- `req.body` of POST `/projects`: the nested `project` object, absent
when the client sent none. -/
structure ProjectBody where
  project : Option Payload := none
  deriving Repr, DecidableEq

/-- POST `/projects` (part_000 lines 60-73): `req.body.project.owner =
req.user.id` (a TypeError when `req.body.project` is `undefined`), then
`Project.create(req.body.project)`, respond 201 with the document. -/
def postProjects (store : Store) (principal : String) (body : ProjectBody) :
    Outcome × Store :=
  match body.project with
  | none => (.err (.typeError "Cannot set properties of undefined"), store)
  | some proj =>
    let p := { proj with owner := some principal }
    match createDoc p with
    | .error e => (.err e, store)
    | .ok d => (.ok 201 (some d), (freshId store, d) :: store)

/-- `req.body` of POST `/chatrooms`: the handler reads BOTH
`req.body.game` (line 62) and `req.body.chatroom` (line 64). -/
structure ChatroomBody where
  game : Option Payload := none
  chatroom : Option Payload := none
  deriving Repr, DecidableEq

/-- POST `/chatrooms` (chatroom_routes.js lines 60-73): line 62 writes
`req.body.game.owner = req.user.id` (a TypeError when `req.body.game` is
`undefined`), while line 64 runs `Chatroom.create(req.body.chatroom)` on
the untouched `chatroom` payload, so a client-supplied `owner` survives
into the created document. `Chatroom.create(undefined)` creates an empty
document, which fails schema validation. -/
def postChatrooms (store : Store) (principal : String) (body : ChatroomBody) :
    Outcome × Store :=
  match body.game with
  | none => (.err (.typeError "Cannot set properties of undefined"), store)
  | some _ =>
    match createDoc (body.chatroom.getD {}) with
    | .error e => (.err e, store)
    | .ok d => (.ok 201 (some d), (freshId store, d) :: store)

/-! ### Example documents used as concrete instances -/

/-- A two-party document: `user2` is set. -/
def exDoc : StoredDoc :=
  { owner := "o", user1 := "a", user2 := some "b", title := some "old" }

/-- A single-party document: `user2` is unset. -/
def exDocSolo : StoredDoc := { owner := "o", user1 := "a" }

/-! ### Store lemmas -/

theorem findById_updateById (store : Store) (id : Nat) (x : StoredDoc)
    (h : findById store id ≠ none) :
    findById (updateById store id x) id = some x := by
  induction store with
  | nil => simp [findById] at h
  | cons kd rest ih =>
    obtain ⟨k, e⟩ := kd
    by_cases hk : k = id
    · simp [updateById, findById, hk]
    · simp only [findById, hk, if_false] at h
      simp [updateById, findById, hk, ih h]

theorem findById_deleteById (store : Store) (id : Nat) :
    findById (deleteById store id) id = none := by
  induction store with
  | nil => rfl
  | cons kd rest ih =>
    obtain ⟨k, e⟩ := kd
    by_cases hk : k = id
    · simp [deleteById, hk, ih]
    · simp [deleteById, findById, hk, ih]

theorem patchPayload_owner (body : Payload) : (patchPayload body).owner = none :=
  rfl

theorem applyUpdate_patch_owner (doc : StoredDoc) (body : Payload) :
    (applyUpdate doc (patchPayload body)).owner = doc.owner :=
  rfl

/-- Behaviour of the PATCH handler on an existing document, by
authorization branch. -/
theorem patchHandler_char (store : Store) (id : Nat) (body : Payload)
    (doc : StoredDoc) (hfind : findById store id = some doc) :
    patchHandler store id body =
      if doc.user2 = none then
        (Outcome.ok 201 (some (applyUpdate doc (patchPayload body))),
          updateById store id (applyUpdate doc (patchPayload body)))
      else if (patchPayload body).user1 ≠ some doc.user1 ∧
          (patchPayload body).user2 ≠ doc.user2 then
        (Outcome.err (ApiError.typeError "chatroom.toObject is not a function"),
          store)
      else
        (Outcome.ok 201 (some (applyUpdate doc (patchPayload body))),
          updateById store id (applyUpdate doc (patchPayload body))) := by
  unfold patchHandler patchStep findOneAndUpdate
  rw [hfind]
  by_cases h2 : doc.user2 = none
  · simp [handle404, h2, toObjectStep]
  · by_cases hm : (patchPayload body).user1 ≠ some doc.user1 ∧
        (patchPayload body).user2 ≠ doc.user2
    · simp [handle404, h2, hm, toObjectStep]
    · simp [handle404, h2, hm, toObjectStep]

/-! ### Claims -/

/-- C1: the claim says every CREATE stores the authenticated principal as
`owner`. POST `/projects` does, but POST `/chatrooms` writes the
principal onto `req.body.game` and creates from the untouched
`req.body.chatroom`: as principal `u1`, a body carrying a `game` object
and `\x7bchatroom: \x7bowner: "attacker", user1: "u1"\x7d\x7d` yields a stored and
returned `owner` of `"attacker"`, not `"u1"`; and a body with no `game`
key ends in a TypeError instead of creating anything. -/
theorem c1_chatroom_create_keeps_client_owner :
    (postChatrooms [] "u1"
        { game := some {},
          chatroom := some { owner := some "attacker", user1 := some "u1" } }).1 =
      Outcome.ok 201 (some { owner := "attacker", user1 := "u1" }) ∧
    "attacker" ≠ "u1" ∧
    (postChatrooms [] "u1"
        { chatroom := some { owner := some "u1", user1 := some "u1" } }).1 =
      Outcome.err (ApiError.typeError "Cannot set properties of undefined") := by
  refine ⟨rfl, ?_, rfl⟩
  decide

/-- C2 counterexample: on a stored two-party document and a payload whose
`user1` and `user2` both differ from the stored values, the mismatch
branch does return the plain string, but the update is NOT performed in
the same pass: the store is left exactly as it was, the stored document
keeps its old `title`, and the update the claim says is applied would
have produced a different document. -/
theorem c2_counterexample :
    (patchStep [(1, exDoc)] 1 exDoc
        (patchPayload { user1 := some "x", user2 := some "y", title := some "new" })).1 =
      ThenValue.str "You are not involved in this project" ∧
    (patchHandler [(1, exDoc)] 1
        { user1 := some "x", user2 := some "y", title := some "new" }).2 =
      [(1, exDoc)] ∧
    findById (patchHandler [(1, exDoc)] 1
        { user1 := some "x", user2 := some "y", title := some "new" }).2 1 =
      some exDoc ∧
    applyUpdate exDoc
        (patchPayload { user1 := some "x", user2 := some "y", title := some "new" }) ≠
      exDoc := by
  refine ⟨rfl, rfl, rfl, ?_⟩
  decide

/-- C2 (amended): when the stored `user2` is set and the sanitized
payload's `user1` and `user2` both differ from the stored values, the
handler returns the plain message string `'You are not involved in this
project'` instead of a structured rejection, and the update is NOT
performed: the early return skips `findOneAndUpdate` and the store is
left unchanged. -/
theorem c2_mismatch_returns_string_no_update (store : Store) (id : Nat)
    (body : Payload) (doc : StoredDoc)
    (hfind : findById store id = some doc)
    (hu2 : doc.user2 ≠ none)
    (h1 : (patchPayload body).user1 ≠ some doc.user1)
    (h2 : (patchPayload body).user2 ≠ doc.user2) :
    patchStep store id doc (patchPayload body) =
      (ThenValue.str "You are not involved in this project", store) ∧
    (patchHandler store id body).2 = store := by
  constructor
  · simp [patchStep, hu2, h1, h2]
  · rw [patchHandler_char store id body doc hfind]
    simp [hu2, h1, h2]

/-- C2 witness. -/
theorem c2_mismatch_witness :
    patchStep [(1, exDoc)] 1 exDoc
        (patchPayload { user1 := some "x", user2 := some "y" }) =
      (ThenValue.str "You are not involved in this project", [(1, exDoc)]) ∧
    (patchHandler [(1, exDoc)] 1 { user1 := some "x", user2 := some "y" }).2 =
      [(1, exDoc)] :=
  c2_mismatch_returns_string_no_update [(1, exDoc)] 1
    { user1 := some "x", user2 := some "y" } exDoc
    (by decide) (by decide) (by decide) (by decide)

/-- C9: when the stored `user2` is set and the sanitized payload's
`user1` and `user2` both differ from the stored values, the string of
the mismatch branch reaches the success continuation, whose
`.toObject()` call fails with a TypeError, so the request ends in the
error channel with no success response and the store entirely
unchanged. -/
theorem c9_mismatch_error_channel (store : Store) (id : Nat)
    (body : Payload) (doc : StoredDoc)
    (hfind : findById store id = some doc)
    (hu2 : doc.user2 ≠ none)
    (h1 : (patchPayload body).user1 ≠ some doc.user1)
    (h2 : (patchPayload body).user2 ≠ doc.user2) :
    toObjectStep (patchStep store id doc (patchPayload body)).1 =
      Except.error (ApiError.typeError "chatroom.toObject is not a function") ∧
    patchHandler store id body =
      (Outcome.err (ApiError.typeError "chatroom.toObject is not a function"),
        store) := by
  constructor
  · simp [patchStep, hu2, h1, h2, toObjectStep]
  · rw [patchHandler_char store id body doc hfind]
    simp [hu2, h1, h2]

/-- C9 witness: a payload that only touches `title` on a two-party
document ends in the error channel, store unchanged. -/
theorem c9_mismatch_error_witness :
    toObjectStep (patchStep [(1, exDoc)] 1 exDoc
        (patchPayload { title := some "hack" })).1 =
      Except.error (ApiError.typeError "chatroom.toObject is not a function") ∧
    patchHandler [(1, exDoc)] 1 { title := some "hack" } =
      (Outcome.err (ApiError.typeError "chatroom.toObject is not a function"),
        [(1, exDoc)]) :=
  c9_mismatch_error_channel [(1, exDoc)] 1 { title := some "hack" } exDoc
    (by decide) (by decide) (by decide) (by decide)

/-- C3: DELETE on an existing document by a principal other than its
`owner` fails with NotOwner and leaves the store unchanged, the document
still retrievable with the same field values; DELETE by the owner
removes the document and responds 204 with no content. -/
theorem c3_delete_ownership (store : Store) (principal : String) (id : Nat)
    (doc : StoredDoc) (hfind : findById store id = some doc) :
    (principal ≠ doc.owner →
      deleteHandler store principal id = (Outcome.err ApiError.notOwner, store) ∧
      findById (deleteHandler store principal id).2 id = some doc) ∧
    (principal = doc.owner →
      deleteHandler store principal id = (Outcome.ok 204 none, deleteById store id) ∧
      findById (deleteHandler store principal id).2 id = none) := by
  constructor
  · intro hne
    have : deleteHandler store principal id = (Outcome.err ApiError.notOwner, store) := by
      simp [deleteHandler, handle404, hfind, requireOwnership, hne]
    exact ⟨this, by rw [this]; exact hfind⟩
  · intro heq
    have : deleteHandler store principal id = (Outcome.ok 204 none, deleteById store id) := by
      simp [deleteHandler, handle404, hfind, requireOwnership, heq]
    exact ⟨this, by rw [this]; exact findById_deleteById store id⟩

/-- C3 witness: an intruder's DELETE is rejected as NotOwner with the
document intact; the owner's DELETE removes it and returns 204. -/
theorem c3_delete_witness :
    (deleteHandler [(1, exDoc)] "intruder" 1 =
        (Outcome.err ApiError.notOwner, [(1, exDoc)]) ∧
      findById (deleteHandler [(1, exDoc)] "intruder" 1).2 1 = some exDoc) ∧
    (deleteHandler [(1, exDoc)] "o" 1 =
        (Outcome.ok 204 none, deleteById [(1, exDoc)] 1) ∧
      findById (deleteHandler [(1, exDoc)] "o" 1).2 1 = none) :=
  ⟨(c3_delete_ownership [(1, exDoc)] "intruder" 1 exDoc (by decide)).1 (by decide),
    (c3_delete_ownership [(1, exDoc)] "o" 1 exDoc (by decide)).2 (by decide)⟩

/-- C4: when no document is stored under the id, SHOW, UPDATE and DELETE
all fail with exactly NotFound, for every payload and every principal. -/
theorem c4_absent_id_notfound (store : Store) (id : Nat) (body : Payload)
    (principal : String) (h : findById store id = none) :
    showHandler store id = Outcome.err ApiError.notFound ∧
    patchHandler store id body = (Outcome.err ApiError.notFound, store) ∧
    deleteHandler store principal id = (Outcome.err ApiError.notFound, store) := by
  refine ⟨?_, ?_, ?_⟩ <;> simp [showHandler, patchHandler, deleteHandler, handle404, h]

/-- C4 witness. -/
theorem c4_absent_id_witness :
    showHandler [] 5 = Outcome.err ApiError.notFound ∧
    patchHandler [] 5 {} = (Outcome.err ApiError.notFound, []) ∧
    deleteHandler [] "u" 5 = (Outcome.err ApiError.notFound, []) :=
  c4_absent_id_notfound [] 5 {} "u" (by decide)

/-- C5: whatever payload a PATCH on an existing document carries, owner
values included, the stored document afterwards has the same `owner` as
before: the handler deletes the payload's `owner` before any branch, so
every branch either leaves the store untouched or applies an update
without an `owner` field. -/
theorem c5_patch_preserves_owner (store : Store) (id : Nat) (body : Payload)
    (doc doc' : StoredDoc)
    (hfind : findById store id = some doc)
    (hafter : findById (patchHandler store id body).2 id = some doc') :
    doc'.owner = doc.owner := by
  rw [patchHandler_char store id body doc hfind] at hafter
  by_cases h2 : doc.user2 = none
  · rw [if_pos h2] at hafter
    rw [findById_updateById store id _ (by rw [hfind]; exact fun hc => by cases hc)] at hafter
    cases hafter
    exact applyUpdate_patch_owner doc body
  · by_cases hm : (patchPayload body).user1 ≠ some doc.user1 ∧
        (patchPayload body).user2 ≠ doc.user2
    · rw [if_neg h2, if_pos hm] at hafter
      rw [hfind] at hafter
      cases hafter
      rfl
    · rw [if_neg h2, if_neg hm] at hafter
      rw [findById_updateById store id _ (by rw [hfind]; exact fun hc => by cases hc)] at hafter
      cases hafter
      exact applyUpdate_patch_owner doc body

/-- C5 witness: a PATCH supplying `owner := "evil"` leaves the stored
owner at its old value. -/
theorem c5_patch_owner_witness :
    ({ owner := "o", user1 := "a", title := some "t" } : StoredDoc).owner =
      exDocSolo.owner :=
  c5_patch_preserves_owner [(1, exDocSolo)] 1
    { owner := some "evil", title := some "t" } exDocSolo
    { owner := "o", user1 := "a", title := some "t" }
    (by decide) (by decide)

/-- C6: a payload field bound to the empty string is removed by the
sanitizer, and the corresponding field of the stored document is
unchanged by the PATCH, whichever branch runs. -/
theorem c6_blank_field_unchanged (store : Store) (id : Nat) (body : Payload)
    (doc doc' : StoredDoc)
    (hfind : findById store id = some doc)
    (hafter : findById (patchHandler store id body).2 id = some doc') :
    (body.user1 = some "" → (removeBlanks body).user1 = none ∧ doc'.user1 = doc.user1) ∧
    (body.user2 = some "" → (removeBlanks body).user2 = none ∧ doc'.user2 = doc.user2) ∧
    (body.title = some "" → (removeBlanks body).title = none ∧ doc'.title = doc.title) ∧
    (body.user1Email = some "" →
      (removeBlanks body).user1Email = none ∧ doc'.user1Email = doc.user1Email) ∧
    (body.user2Email = some "" →
      (removeBlanks body).user2Email = none ∧ doc'.user2Email = doc.user2Email) := by
  have hdoc : doc' = applyUpdate doc (patchPayload body) ∨ doc' = doc := by
    rw [patchHandler_char store id body doc hfind] at hafter
    by_cases h2 : doc.user2 = none
    · rw [if_pos h2] at hafter
      rw [findById_updateById store id _ (by rw [hfind]; exact fun hc => by cases hc)] at hafter
      cases hafter
      exact Or.inl rfl
    · by_cases hm : (patchPayload body).user1 ≠ some doc.user1 ∧
          (patchPayload body).user2 ≠ doc.user2
      · rw [if_neg h2, if_pos hm] at hafter
        rw [hfind] at hafter
        cases hafter
        exact Or.inr rfl
      · rw [if_neg h2, if_neg hm] at hafter
        rw [findById_updateById store id _ (by rw [hfind]; exact fun hc => by cases hc)] at hafter
        cases hafter
        exact Or.inl rfl
  rcases hdoc with hdoc | hdoc <;> subst hdoc <;>
    refine ⟨fun hb => ?_, fun hb => ?_, fun hb => ?_, fun hb => ?_, fun hb => ?_⟩ <;>
    simp [removeBlanks, stripBlank, applyUpdate, patchPayload, setField, hb]

/-- C6 witness: blanking `title` while updating `user1` leaves the stored
`title` unchanged. -/
theorem c6_blank_field_witness :
    (({ title := some "", user1 := some "z" } : Payload).user1 = some "" →
      (removeBlanks { title := some "", user1 := some "z" }).user1 = none ∧
      ({ owner := "o", user1 := "z" } : StoredDoc).user1 = exDocSolo.user1) ∧
    (({ title := some "", user1 := some "z" } : Payload).user2 = some "" →
      (removeBlanks { title := some "", user1 := some "z" }).user2 = none ∧
      ({ owner := "o", user1 := "z" } : StoredDoc).user2 = exDocSolo.user2) ∧
    (({ title := some "", user1 := some "z" } : Payload).title = some "" →
      (removeBlanks { title := some "", user1 := some "z" }).title = none ∧
      ({ owner := "o", user1 := "z" } : StoredDoc).title = exDocSolo.title) ∧
    (({ title := some "", user1 := some "z" } : Payload).user1Email = some "" →
      (removeBlanks { title := some "", user1 := some "z" }).user1Email = none ∧
      ({ owner := "o", user1 := "z" } : StoredDoc).user1Email = exDocSolo.user1Email) ∧
    (({ title := some "", user1 := some "z" } : Payload).user2Email = some "" →
      (removeBlanks { title := some "", user1 := some "z" }).user2Email = none ∧
      ({ owner := "o", user1 := "z" } : StoredDoc).user2Email = exDocSolo.user2Email) :=
  c6_blank_field_unchanged [(1, exDocSolo)] 1 { title := some "", user1 := some "z" }
    exDocSolo { owner := "o", user1 := "z" } (by decide) (by decide)

/-- C7: on an existing document with `user2` unset, every PATCH applies
the sanitized update unconditionally, whatever the requester sent: the
outcome is 201 with the post-update document and the store is updated,
with no participant or ownership check consulted. -/
theorem c7_no_user2_unconditional (store : Store) (id : Nat) (body : Payload)
    (doc : StoredDoc)
    (hfind : findById store id = some doc)
    (hu2 : doc.user2 = none) :
    patchHandler store id body =
      (Outcome.ok 201 (some (applyUpdate doc (patchPayload body))),
        updateById store id (applyUpdate doc (patchPayload body))) := by
  rw [patchHandler_char store id body doc hfind, if_pos hu2]

/-- C7 witness. -/
theorem c7_no_user2_witness :
    patchHandler [(1, exDocSolo)] 1 { title := some "t", user1 := some "z" } =
      (Outcome.ok 201 (some (applyUpdate exDocSolo
          (patchPayload { title := some "t", user1 := some "z" }))),
        updateById [(1, exDocSolo)] 1 (applyUpdate exDocSolo
          (patchPayload { title := some "t", user1 := some "z" }))) :=
  c7_no_user2_unconditional [(1, exDocSolo)] 1
    { title := some "t", user1 := some "z" } exDocSolo (by decide) (by decide)

/-- C8: every PATCH that produces a success outcome responds with
status 201, and its JSON body is exactly the post-update document as
stored. -/
theorem c8_success_201_post_update (store : Store) (id : Nat) (body : Payload)
    (st : Nat) (b : Option StoredDoc)
    (h : (patchHandler store id body).1 = Outcome.ok st b) :
    st = 201 ∧ ∃ d, b = some d ∧
      findById (patchHandler store id body).2 id = some d := by
  cases hfind : findById store id with
  | none =>
    have hnone : patchHandler store id body = (Outcome.err ApiError.notFound, store) := by
      simp [patchHandler, handle404, hfind]
    rw [hnone] at h
    exact Outcome.noConfusion h
  | some doc =>
    rw [patchHandler_char store id body doc hfind] at h ⊢
    by_cases h2 : doc.user2 = none
    · rw [if_pos h2] at h ⊢
      have h' : Outcome.ok 201 (some (applyUpdate doc (patchPayload body))) =
          Outcome.ok st b := h
      injection h' with hst hb
      refine ⟨hst.symm, applyUpdate doc (patchPayload body), hb.symm, ?_⟩
      exact findById_updateById store id _ (by rw [hfind]; exact fun hc => by cases hc)
    · by_cases hm : (patchPayload body).user1 ≠ some doc.user1 ∧
          (patchPayload body).user2 ≠ doc.user2
      · rw [if_neg h2, if_pos hm] at h
        exact Outcome.noConfusion h
      · rw [if_neg h2, if_neg hm] at h ⊢
        have h' : Outcome.ok 201 (some (applyUpdate doc (patchPayload body))) =
            Outcome.ok st b := h
        injection h' with hst hb
        refine ⟨hst.symm, applyUpdate doc (patchPayload body), hb.symm, ?_⟩
        exact findById_updateById store id _ (by rw [hfind]; exact fun hc => by cases hc)

/-- C8 witness. -/
theorem c8_success_201_witness :
    (201 : Nat) = 201 ∧ ∃ d,
      (some (applyUpdate exDocSolo (patchPayload { title := some "t" })) :
          Option StoredDoc) = some d ∧
      findById (patchHandler [(1, exDocSolo)] 1 { title := some "t" }).2 1 = some d :=
  c8_success_201_post_update [(1, exDocSolo)] 1 { title := some "t" } 201
    (some (applyUpdate exDocSolo (patchPayload { title := some "t" })))
    (by decide)

/-- C10: on an existing document with `user2` set, a sanitized payload
that carries neither `user1` nor `user2` takes the mismatch branch
(an absent field strictly differs from any stored value), and the
mismatch branch is avoided exactly when the payload's `user1` equals the
stored `user1` or its `user2` equals the stored `user2`. -/
theorem c10_mismatch_condition (store : Store) (id : Nat) (body : Payload)
    (doc : StoredDoc) (w : String)
    (hfind : findById store id = some doc)
    (hu2 : doc.user2 = some w) :
    ((patchPayload body).user1 = none ∧ (patchPayload body).user2 = none →
      (patchStep store id doc (patchPayload body)).1 =
        ThenValue.str "You are not involved in this project") ∧
    ((patchStep store id doc (patchPayload body)).1 ≠
        ThenValue.str "You are not involved in this project" ↔
      (patchPayload body).user1 = some doc.user1 ∨
        (patchPayload body).user2 = doc.user2) := by
  have hu2' : doc.user2 ≠ none := by rw [hu2]; exact fun hc => by cases hc
  by_cases hc : (patchPayload body).user1 ≠ some doc.user1 ∧
      (patchPayload body).user2 ≠ doc.user2
  · have hres : patchStep store id doc (patchPayload body) =
        (ThenValue.str "You are not involved in this project", store) := by
      unfold patchStep
      rw [if_neg hu2', if_pos hc]
    refine ⟨fun _ => by rw [hres], ?_⟩
    rw [hres]
    constructor
    · intro hne
      exact absurd rfl hne
    · rintro (h | h)
      · exact absurd h hc.1
      · exact absurd h hc.2
  · have hres : patchStep store id doc (patchPayload body) =
        (ThenValue.mongoResult (findOneAndUpdate store id (patchPayload body)).1,
          (findOneAndUpdate store id (patchPayload body)).2) := by
      unfold patchStep
      rw [if_neg hu2', if_neg hc]
    rw [not_and_or, not_not, not_not] at hc
    constructor
    · rintro ⟨e1, e2⟩
      rcases hc with h | h
      · rw [e1] at h
        cases h
      · rw [e2] at h
        rw [hu2] at h
        cases h
    · rw [hres]
      constructor
      · intro _
        exact hc
      · intro _ heq
        exact ThenValue.noConfusion heq

/-- C10 witness: a payload touching only `title` on a two-party document
takes the mismatch branch; neither user field matches. -/
theorem c10_mismatch_witness :
    ((patchPayload { title := some "x" }).user1 = none ∧
        (patchPayload { title := some "x" }).user2 = none →
      (patchStep [(1, exDoc)] 1 exDoc (patchPayload { title := some "x" })).1 =
        ThenValue.str "You are not involved in this project") ∧
    ((patchStep [(1, exDoc)] 1 exDoc (patchPayload { title := some "x" })).1 ≠
        ThenValue.str "You are not involved in this project" ↔
      (patchPayload { title := some "x" }).user1 = some exDoc.user1 ∨
        (patchPayload { title := some "x" }).user2 = exDoc.user2) :=
  c10_mismatch_condition [(1, exDoc)] 1 { title := some "x" } exDoc "b"
    (by decide) (by decide)

end ChatroomApi
